import Mathlib

/-!
Verification of the wisprtux / whisperflow streaming transcription core.

The definitions below are a shallow embedding of
`wisprtux/gui/transcription_engine.py` and
`whisperflow/gui/transcription_engine.py`:

* pure data (`TranscriptEvent`, model-file table) is translated directly;
* the worker loop (`_worker_loop`) is translated as a step function over an
  explicit loop state, consuming a list of frame-read results (`none` models
  a read that raised) and a list of per-cycle inference results (`none`
  models an inference call that raised);
* external calls (clipboard, window focus, typing, network fetch) are
  recorded as actions in an output trace; their boolean results, which the
  Python code receives and discards, are passed in as parameters so that
  independence from them can be stated.
-/

/-- One 1024-sample PCM frame.  The loop never inspects the bytes, only
appends frames to the window, so the payload is abstracted to a `Nat`. -/
abbrev Frame := Nat

/-- The unit emitted to transcript listeners:
`{"is_partial": bool, "data": {"text": str}}`. -/
structure TranscriptEvent where
  is_partial : Bool
  text : String
deriving Repr, DecidableEq

/-- `true` on a final (non-partial) event. -/
def isFinalEvent : TranscriptEvent → Bool
  | ⟨p, _⟩ => !p

/-- Whether a list of events contains a final event. -/
def finalIn (evs : List TranscriptEvent) : Bool :=
  evs.any isFinalEvent

/-- Result of one classification step (`wisprtux` `_worker_loop`,
lines 257–275): updated window / `prev_text` / `stable_cycles`, the
transcript events emitted, and the texts passed to `_route_final_text`. -/
structure ClassifyOut where
  window : List Frame
  prev_text : String
  stable_cycles : Nat
  events : List TranscriptEvent
  routed : List String
deriving Repr, DecidableEq

/-- The classification step of the wisprtux worker loop (lines 257–275 of
`wisprtux/gui/transcription_engine.py`): given the current window,
`prev_text`, `stable_cycles` and the cycle's (stripped) inference text,
update the stability state and emit a partial or final event.  A final
event is also routed. -/
def wtClassify (window : List Frame) (prev_text : String)
    (stable_cycles : Nat) (text : String) : ClassifyOut :=
  if text ≠ "" then
    let stable2 := if text = prev_text then stable_cycles + 1 else 0
    let prev2 := if text = prev_text then prev_text else text
    if 2 ≤ stable2 then
      ⟨[], "", 0, [⟨false, text⟩], [text]⟩
    else
      ⟨window, prev2, stable2, [⟨true, text⟩], []⟩
  else
    ⟨window, prev_text, stable_cycles, [], []⟩

/-- The classification step of the whisperflow worker loop (lines 193–211 of
`whisperflow/gui/transcription_engine.py`); identical to `wtClassify`
except that no routing happens. -/
def wfClassify (window : List Frame) (prev_text : String)
    (stable_cycles : Nat) (text : String) : ClassifyOut :=
  if text ≠ "" then
    let stable2 := if text = prev_text then stable_cycles + 1 else 0
    let prev2 := if text = prev_text then prev_text else text
    if 2 ≤ stable2 then
      ⟨[], "", 0, [⟨false, text⟩], []⟩
    else
      ⟨window, prev2, stable2, [⟨true, text⟩], []⟩
  else
    ⟨window, prev_text, stable_cycles, [], []⟩

/-- Run the wisprtux classification step over a whole sequence of per-cycle
inference texts, starting from a given `prev_text` / `stable_cycles`,
collecting the emitted transcript events.  (The window argument does not
influence events, so `[]` is passed.) -/
def wtClassifyRun : String → Nat → List String → List TranscriptEvent
  | _, _, [] => []
  | prev, stable, t :: ts =>
    let c := wtClassify [] prev stable t
    c.events ++ wtClassifyRun c.prev_text c.stable_cycles ts

/-- Whether a list contains three consecutive equal elements. -/
def hasTriple : List String → Bool
  | a :: b :: c :: rest =>
    if a = b ∧ b = c then true else hasTriple (b :: c :: rest)
  | _ => false

/-- Auxiliary generalisation used to characterise when the classification
loop, started in state (`p`, `s`), emits a final event while consuming a
(already filtered, empty strings removed) text sequence `f`: either `f`
contains three consecutive equal elements, or the initial state is one or
two repetitions away from finalisation. -/
def canFinalize (p : String) (s : Nat) (f : List String) : Bool :=
  hasTriple f ||
    match f with
    | [] => false
    | a :: rest =>
      (if 1 ≤ s ∧ a = p then true else false) ||
        match rest with
        | b :: _ => if a = p ∧ b = p then true else false
        | [] => false

/-- `transcribe_interval = 0.5` seconds (line 219); exact in binary
floating point, embedded as the rational 1/2. -/
def transcribe_interval : ℚ := 1 / 2

/-- `chunks_per_interval = int(16000 * transcribe_interval / 1024)`
(line 220).  All intermediate float values are exactly representable and
positive, so Python's `int` truncation is the rational floor. -/
def chunks_per_interval : Nat :=
  Int.toNat ⌊16000 * transcribe_interval / 1024⌋

/-- Python's `str.strip()` on the inference text (line 253): drop leading
and trailing whitespace.  Implemented structurally over the character list
so that it evaluates by kernel reduction. -/
def pyStrip (s : String) : String :=
  ⟨((s.data.dropWhile Char.isWhitespace).reverse.dropWhile
      Char.isWhitespace).reverse⟩

/-- State carried across iterations of the worker loop (lines 218–223). -/
structure LoopState where
  window : List Frame
  chunk_count : Nat
  prev_text : String
  stable_cycles : Nat
deriving Repr, DecidableEq

/-- Initial loop state (lines 218–223): empty window, zero counters. -/
def initLoopState : LoopState := ⟨[], 0, "", 0⟩

/-- Output of one iteration of the loop body. -/
structure StepOut where
  state : LoopState
  statuses : List String
  events : List TranscriptEvent
  routed : List String
  consumedInfer : Bool
deriving Repr, DecidableEq

/-- One iteration of the wisprtux worker loop body (lines 226–277).
`read = none` models `stream.read` raising (the `continue` branch);
`infer = none` models `self._model.transcribe` raising, in which case the
cycle's text is `""`; `infer = some raw` yields `pyStrip raw` (Python
`.strip()`). -/
def wtStep (s : LoopState) (read : Option Frame) (infer : Option String) :
    StepOut :=
  match read with
  | none => ⟨s, [], [], [], false⟩
  | some data =>
    let window := s.window ++ [data]
    let chunk_count := s.chunk_count + 1
    if chunks_per_interval ≤ chunk_count ∧ window ≠ [] then
      let text :=
        match infer with
        | some raw => pyStrip raw
        | none => ""
      let c := wtClassify window s.prev_text s.stable_cycles text
      ⟨⟨c.window, 0, c.prev_text, c.stable_cycles⟩,
        ["Transcribing...", "Recording..."], c.events, c.routed, true⟩
    else
      ⟨⟨window, chunk_count, s.prev_text, s.stable_cycles⟩, [], [], [], false⟩

/-- One iteration of the whisperflow worker loop body (lines 159–213);
identical to `wtStep` except that the final branch does not route. -/
def wfStep (s : LoopState) (read : Option Frame) (infer : Option String) :
    StepOut :=
  match read with
  | none => ⟨s, [], [], [], false⟩
  | some data =>
    let window := s.window ++ [data]
    let chunk_count := s.chunk_count + 1
    if chunks_per_interval ≤ chunk_count ∧ window ≠ [] then
      let text :=
        match infer with
        | some raw => pyStrip raw
        | none => ""
      let c := wfClassify window s.prev_text s.stable_cycles text
      ⟨⟨c.window, 0, c.prev_text, c.stable_cycles⟩,
        ["Transcribing...", "Recording..."], c.events, c.routed, true⟩
    else
      ⟨⟨window, chunk_count, s.prev_text, s.stable_cycles⟩, [], [], [], false⟩

/-- Accumulated output of a run of the worker loop. -/
structure RunOut where
  state : LoopState
  statuses : List String
  events : List TranscriptEvent
  routed : List String
deriving Repr, DecidableEq

/-- Run the wisprtux worker loop over a finite list of frame-read results,
consuming one element of `infers` per inference cycle (an exhausted list
behaves as a raising inference). -/
def wtRun : LoopState → List (Option Frame) → List (Option String) → RunOut
  | s, [], _ => ⟨s, [], [], []⟩
  | s, read :: reads, infers =>
    let o := wtStep s read (infers.headD none)
    let r := wtRun o.state reads (if o.consumedInfer then infers.tail else infers)
    ⟨r.state, o.statuses ++ r.statuses, o.events ++ r.events, o.routed ++ r.routed⟩

/-- Run the whisperflow worker loop; same driver as `wtRun` over `wfStep`. -/
def wfRun : LoopState → List (Option Frame) → List (Option String) → RunOut
  | s, [], _ => ⟨s, [], [], []⟩
  | s, read :: reads, infers =>
    let o := wfStep s read (infers.headD none)
    let r := wfRun o.state reads (if o.consumedInfer then infers.tail else infers)
    ⟨r.state, o.statuses ++ r.statuses, o.events ++ r.events, o.routed ++ r.routed⟩

/-- Snapshot of the window that was active when recording started
(`WindowSnapshot`): `window_id = none` models `xdotool` returning nothing,
in which case `valid` is false. -/
structure OriginWindow where
  window_id : Option String
deriving Repr, DecidableEq

/-- `WindowSnapshot.valid`: the snapshot captured a window id. -/
def OriginWindow.validSnap (ow : OriginWindow) : Bool :=
  ow.window_id.isSome

/-- External calls made by `_route_final_text`, in order. -/
inductive RouteAction where
  | setClipboard (text : String)
  | focusWindow (window_id : String)
  | typeText (text : String)
deriving Repr, DecidableEq

/-- `TranscriptionEngine._route_final_text` (lines 166–182 of
`wisprtux/gui/transcription_engine.py`) as the trace of external calls it
makes.  The boolean results of `set_clipboard`, `focus_window` and
`type_text` — which the Python code receives and discards — are the
parameters `clip_result`, `focus_result`, `type_result`; the trace cannot
depend on them because the source never reads them. -/
def route_final_text (text : String) (auto_clipboard auto_type : Bool)
    (origin_window : Option OriginWindow)
    (clip_result focus_result type_result : Bool) : List RouteAction :=
  if text = "" then []
  else
    (if auto_clipboard then [RouteAction.setClipboard text] else []) ++
    (if auto_type then
      match origin_window with
      | some ow =>
        match ow.window_id with
        | some wid => [RouteAction.focusWindow wid, RouteAction.typeText text]
        | none => []
      | none => []
    else [])

/-- Engine control state: the fields of `TranscriptionEngine` touched by
`start_recording` / `stop_recording` (lines 139–162).  `worker_count`
counts worker threads spawned so far. -/
structure EngineControl where
  recording : Bool
  origin_window : Option OriginWindow
  stop_event_set : Bool
  worker_count : Nat
deriving Repr, DecidableEq

/-- `TranscriptionEngine.start_recording` (lines 139–154): no-op while
recording; otherwise captures the active window (`captured`), marks
recording, clears the stop event and spawns one worker thread.  The
returned boolean reports whether a worker was spawned. -/
def start_recording (s : EngineControl) (captured : OriginWindow) :
    EngineControl × Bool :=
  if s.recording then (s, false)
  else
    (⟨true, some captured, false, s.worker_count + 1⟩, true)

/-- `TranscriptionEngine.stop_recording` (lines 156–162): no-op while not
recording; otherwise clears the recording flag, sets the stop event and
emits the status `"Ready"` (the returned list). -/
def stop_recording (s : EngineControl) : EngineControl × List String :=
  if !s.recording then (s, [])
  else
    ({ s with recording := false, stop_event_set := true }, ["Ready"])

/-- `MODEL_FILES` (lines 27–33), as an association list. -/
def MODEL_FILES : List (String × String) :=
  [("tiny.en", "tiny.en.pt"),
   ("base.en", "base.en.pt"),
   ("small.en", "small.en.pt"),
   ("medium.en", "medium.en.pt"),
   ("large", "large.pt")]

/-- `MODELS_DIR` (line 35) resolves relative to the installed package; the
concrete prefix is irrelevant to the claims, only its use as a fixed
directory for the weight files matters. -/
def MODELS_DIR : String := "wisprtux/models"

/-- `MODEL_FILES.get(model_name, "tiny.en.pt")` (line 112). -/
def model_file_name (model_name : String) : String :=
  ((List.lookup model_name MODEL_FILES).getD "tiny.en.pt")

/-- Result of `_load_model`: whether it returned `True`, whether a network
fetch was attempted, what was handed to `whisper.load_model` (local path,
or model size string for a download), and the statuses emitted. -/
structure LoadOut where
  ok : Bool
  network_attempted : Bool
  loaded : Option String
  statuses : List String
deriving Repr, DecidableEq

/-- `TranscriptionEngine._load_model` (lines 109–135).  `local_exists`
models `os.path.exists`; `load_ok` models whether the `whisper.load_model`
call in the taken branch succeeds (an exception is caught and reported as
`"Model load failed"`).  Branch order as in the source: local file first
(no network regardless of `offline`), else download when not offline, else
fail offline with no fetch. -/
def load_model (model_name : String) (offline : Bool)
    (local_exists : String → Bool) (load_ok : Bool) : LoadOut :=
  let file_name := model_file_name model_name
  let local_path := MODELS_DIR ++ "/" ++ file_name
  if local_exists local_path then
    if load_ok then
      ⟨true, false, some local_path, ["Loading model...", "Model loaded"]⟩
    else
      ⟨false, false, none, ["Loading model...", "Model load failed"]⟩
  else if !offline then
    if load_ok then
      ⟨true, true, some (model_name.replace ".en" ""),
        ["Loading model...", "Model loaded"]⟩
    else
      ⟨false, true, none, ["Loading model...", "Model load failed"]⟩
  else
    ⟨false, false, none, ["Loading model...", "Model not available offline"]⟩

/-! ## Stability heuristic: characterisation of final events -/

lemma canFinalize_zero_cons (p : String) (f : List String) :
    canFinalize p 0 (p :: f) = canFinalize p 1 f := by
  cases f with
  | nil => simp [canFinalize, hasTriple]
  | cons b f2 =>
    by_cases hb : b = p
    · subst hb; simp [canFinalize]
    · have hb' : p ≠ b := fun h => hb h.symm
      cases f2 with
      | nil => simp [canFinalize, hasTriple, hb, hb']
      | cons c f3 => simp [canFinalize, hasTriple, hb, hb']

lemma canFinalize_ne_cons (p t : String) (s : Nat) (f : List String)
    (ht : t ≠ p) : canFinalize p s (t :: f) = canFinalize t 0 f := by
  cases f with
  | nil => simp [canFinalize, hasTriple, ht]
  | cons a f2 =>
    cases f2 with
    | nil => simp [canFinalize, hasTriple, ht]
    | cons c f3 =>
      by_cases ha : a = t
      · subst ha
        by_cases hc : c = a
        · subst hc; simp [canFinalize, hasTriple, ht]
        · have hc' : a ≠ c := fun h => hc h.symm
          simp [canFinalize, hasTriple, ht, hc, hc']
      · have ha' : t ≠ a := fun h => ha h.symm
        simp [canFinalize, hasTriple, ht, ha, ha']

lemma canFinalize_pos (p : String) (s : Nat) (f : List String) (hs : 1 ≤ s) :
    canFinalize p s (p :: f) = true := by
  cases f with
  | nil => simp [canFinalize, hs]
  | cons b f2 => simp [canFinalize, hs]

lemma canFinalize_filter (ts : List String) :
    canFinalize "" 0 (ts.filter fun t => t ≠ "") =
      hasTriple (ts.filter fun t => t ≠ "") := by
  cases hf : ts.filter (fun t => t ≠ "") with
  | nil => simp [canFinalize, hasTriple]
  | cons a r =>
    have ha : a ≠ "" := by
      have hm : a ∈ ts.filter (fun t => t ≠ "") := by
        rw [hf]; exact List.mem_cons_self a r
      simpa using List.of_mem_filter hm
    cases r with
    | nil => simp [canFinalize, ha]
    | cons b r2 => simp [canFinalize, ha]

lemma finalIn_wtClassifyRun (ts : List String) : ∀ (p : String) (s : Nat),
    finalIn (wtClassifyRun p s ts) =
      canFinalize p s (ts.filter fun t => t ≠ "") := by
  induction ts with
  | nil => intro p s; simp [wtClassifyRun, finalIn, canFinalize, hasTriple]
  | cons t ts ih =>
    intro p s
    by_cases ht : t = ""
    · subst ht
      simpa [wtClassifyRun, wtClassify, finalIn, List.any_append,
        decide_not] using ih p s
    · by_cases htp : t = p
      · subst htp
        rcases Nat.eq_zero_or_pos s with hs | hs
        · subst hs
          have h1 := ih t 1
          simp [wtClassifyRun, wtClassify, ht, finalIn, List.any_append,
            isFinalEvent, decide_not] at h1 ⊢
          rw [canFinalize_zero_cons]
          exact h1
        · have hfin : 2 ≤ s + 1 := by omega
          simp [wtClassifyRun, wtClassify, ht, hfin, finalIn, List.any_append,
            isFinalEvent, decide_not]
          exact canFinalize_pos _ _ _ hs
      · have h0 := ih t 0
        simp [wtClassifyRun, wtClassify, ht, htp, finalIn, List.any_append,
          isFinalEvent, decide_not] at h0 ⊢
        rw [canFinalize_ne_cons _ _ _ _ htp]
        exact h0

/-- Claim C1, counterexample.  The claim states that the repeat counter
resets to 0 on an empty cycle and that a final event requires three
consecutive non-empty identical cycles, so that for the cycle sequence
`"", "hi", "", "hi", "hi", "hi"` exactly one final event is emitted after
the SIXTH cycle.  On the code, an empty cycle leaves `prev_text` and
`stable_cycles` untouched: a final event is already emitted after the
FIFTH cycle — although no three consecutive cycles of that sequence carry
identical non-empty text — and the sixth cycle emits a further partial
event. -/
theorem wisprtux_c1_counterexample :
    finalIn (wtClassifyRun "" 0 ["", "hi", "", "hi", "hi"]) = true ∧
      wtClassifyRun "" 0 ["", "hi", "", "hi", "hi", "hi"] =
        [⟨true, "hi"⟩, ⟨true, "hi"⟩, ⟨false, "hi"⟩, ⟨true, "hi"⟩] := by
  constructor <;> decide

/-- Claim C1, amended.  For every sequence of per-cycle inference result
strings fed to the classification step, a final TranscriptEvent is emitted
iff the same non-empty text is produced by three cycles consecutive among
the NON-EMPTY cycles (empty cycles emit nothing and leave `prev_text` and
the repeat counter unchanged — they do not reset them): formally, a final
event occurs iff the list of cycle texts with empty strings filtered out
contains three consecutive equal elements.  For the cycle sequence
`"", "hi", "", "hi", "hi", "hi"` exactly one final event
`{is_partial := false, text := "hi"}` is emitted, after the fifth cycle. -/
theorem wisprtux_c1_stability :
    (∀ ts : List String,
        finalIn (wtClassifyRun "" 0 ts) =
          hasTriple (ts.filter fun t => t ≠ "")) ∧
      wtClassifyRun "" 0 ["", "hi", "", "hi", "hi", "hi"] =
        [⟨true, "hi"⟩, ⟨true, "hi"⟩, ⟨false, "hi"⟩, ⟨true, "hi"⟩] := by
  constructor
  · intro ts
    rw [finalIn_wtClassifyRun, canFinalize_filter]
  · decide

/-! ## Inference cadence -/

lemma chunks_per_interval_eq : chunks_per_interval = 7 := by
  norm_num [chunks_per_interval, transcribe_interval]
  decide

/-- Claim C2, counterexample.  The claim states that the number of
accumulated frames that triggers one inference cycle equals
`ceil(interval_seconds * sample_rate / frame_size) = 8`.  The code computes
`int(16000 * 0.5 / 1024)`, which truncates to 7, and indeed a run of 7
successful frame reads from the initial state already triggers an
inference cycle (the `"Transcribing..."` status is emitted). -/
theorem wisprtux_c2_counterexample :
    chunks_per_interval = 7 ∧
      ⌈16000 * transcribe_interval / 1024⌉ = 8 ∧
      (wtRun initLoopState (List.replicate 7 (some 0)) []).statuses =
        ["Transcribing...", "Recording..."] := by
  refine ⟨chunks_per_interval_eq, ?_, ?_⟩
  · rw [show (16000 * transcribe_interval / 1024 : ℚ) = 125 / 16 by
      norm_num [transcribe_interval]]
    rw [Int.ceil_eq_iff] <;> norm_num
  · simp [wtRun, wtStep, chunks_per_interval_eq, initLoopState, wtClassify,
      List.replicate]

/-- Claim C2, amended.  The number of accumulated frames that triggers one
inference cycle equals `int(interval_seconds * sample_rate / frame_size)`
(truncation, i.e. the floor for these positive values), which for the
configured interval of 0.5 s, sample rate 16000 Hz and frame size 1024 is
exactly 7 frames: six successful reads from the initial state trigger no
cycle and emit nothing, the seventh triggers a cycle regardless of the
inference results. -/
theorem wisprtux_c2_trigger :
    chunks_per_interval = 7 ∧
      ∀ infers,
        (wtRun initLoopState (List.replicate 6 (some 0)) infers).statuses
            = [] ∧
        (wtRun initLoopState (List.replicate 6 (some 0)) infers).events
            = [] ∧
        (wtRun initLoopState (List.replicate 7 (some 0)) infers).statuses =
          ["Transcribing...", "Recording..."] := by
  refine ⟨chunks_per_interval_eq, fun infers => ?_⟩
  refine ⟨?_, ?_, ?_⟩ <;>
    simp [wtRun, wtStep, chunks_per_interval_eq, initLoopState,
      List.replicate]

/-! ## Window and repeat-counter invariants -/

/-- Claim C3: across every iteration of the worker loop, a step that emits
a final event resets the window to empty, `prev_text` to `""` and
`stable_cycles` to 0; a step that emits no final event never shrinks the
window (its length is monotonically non-decreasing) and never resets it to
empty unless it was already empty.  Consequently, after a final event an
immediately repeated identical non-empty text needs three more consecutive
producing cycles — partial, partial, final — before finalizing again. -/
theorem wisprtux_c3_invariants :
    (∀ (s : LoopState) (read : Option Frame) (infer : Option String),
        (finalIn (wtStep s read infer).events = true →
          (wtStep s read infer).state.window = [] ∧
          (wtStep s read infer).state.prev_text = "" ∧
          (wtStep s read infer).state.stable_cycles = 0) ∧
        (finalIn (wtStep s read infer).events = false →
          s.window.length ≤ (wtStep s read infer).state.window.length ∧
          ((wtStep s read infer).state.window = [] → s.window = []))) ∧
    (∀ t : String, t ≠ "" →
      wtClassifyRun "" 0 [t, t, t] = [⟨true, t⟩, ⟨true, t⟩, ⟨false, t⟩]) := by
  constructor
  · intro s read infer
    cases read with
    | none => simp [wtStep, finalIn]
    | some d =>
      cases infer with
      | none =>
        simp only [wtStep, wtClassify]
        split_ifs <;> simp [finalIn, isFinalEvent]
      | some raw =>
        simp only [wtStep, wtClassify]
        split_ifs <;> simp [finalIn, isFinalEvent]
  · intro t ht
    simp [wtClassifyRun, wtClassify, ht]

/-- Witness for C3: a concrete finalizing step (state resets), a concrete
non-finalizing step (window grows), and the three-cycle refinalization; all
hypotheses discharged by evaluation. -/
theorem wisprtux_c3_witness :
    ((wtStep ⟨[0], 6, "hi", 1⟩ (some 1) (some "hi")).state.window = [] ∧
     (wtStep ⟨[0], 6, "hi", 1⟩ (some 1) (some "hi")).state.prev_text = "" ∧
     (wtStep ⟨[0], 6, "hi", 1⟩ (some 1) (some "hi")).state.stable_cycles
        = 0) ∧
    ((⟨[], 0, "", 0⟩ : LoopState).window.length ≤
      (wtStep ⟨[], 0, "", 0⟩ (some 1) none).state.window.length) ∧
    wtClassifyRun "" 0 ["a", "a", "a"] =
      [⟨true, "a"⟩, ⟨true, "a"⟩, ⟨false, "a"⟩] := by
  have ht : pyStrip "hi" = "hi" := by decide
  refine ⟨(wisprtux_c3_invariants.1 ⟨[0], 6, "hi", 1⟩ (some 1)
      (some "hi")).1 (by simp [wtStep, wtClassify, chunks_per_interval_eq,
        finalIn, isFinalEvent, ht]),
    ((wisprtux_c3_invariants.1 ⟨[], 0, "", 0⟩ (some 1) none).2
      (by simp [wtStep, chunks_per_interval_eq, finalIn])).1,
    wisprtux_c3_invariants.2 "a" (by decide)⟩

/-! ## Error absorption in the worker loop -/

/-- Claim C6: recoverable errors are fully absorbed inside the worker loop.
A frame read that raises (`read = none`) changes nothing — no status, no
transcript event, no routing, state unchanged — and the run continues with
the remaining reads.  An inference call that raises (`infer = none`) makes
the cycle's hypothesis the empty string: no transcript event is emitted,
nothing is routed, the window keeps its accumulated frames (plus the frame
just read), and `prev_text` / `stable_cycles` are untouched.  In neither
case does any error value appear in the output traces, and the loop (a
total function on the remaining input) continues. -/
theorem wisprtux_c6_error_absorption :
    (∀ (s : LoopState) (infer : Option String) (reads : List (Option Frame))
        (infers : List (Option String)),
        wtStep s none infer = ⟨s, [], [], [], false⟩ ∧
        wtRun s (none :: reads) infers = wtRun s reads infers) ∧
    (∀ (s : LoopState) (d : Frame),
        (wtStep s (some d) none).events = [] ∧
        (wtStep s (some d) none).routed = [] ∧
        (wtStep s (some d) none).state.window = s.window ++ [d] ∧
        (wtStep s (some d) none).state.prev_text = s.prev_text ∧
        (wtStep s (some d) none).state.stable_cycles = s.stable_cycles) := by
  constructor
  · intro s infer reads infers
    exact ⟨rfl, rfl⟩
  · intro s d
    simp only [wtStep]
    split_ifs <;> simp [wtClassify]

/-! ## Equivalence of the two engine versions -/

lemma wtClassify_eq_wfClassify (w : List Frame) (p : String) (sc : Nat)
    (text : String) :
    (wtClassify w p sc text).window = (wfClassify w p sc text).window ∧
    (wtClassify w p sc text).prev_text = (wfClassify w p sc text).prev_text ∧
    (wtClassify w p sc text).stable_cycles =
      (wfClassify w p sc text).stable_cycles ∧
    (wtClassify w p sc text).events = (wfClassify w p sc text).events ∧
    (wtClassify w p sc text).routed =
      ((wtClassify w p sc text).events.filter isFinalEvent).map
        TranscriptEvent.text := by
  simp only [wtClassify, wfClassify]
  split_ifs <;> simp [isFinalEvent]

lemma wtStep_eq_wfStep (s : LoopState) (read : Option Frame)
    (infer : Option String) :
    (wtStep s read infer).state = (wfStep s read infer).state ∧
    (wtStep s read infer).statuses = (wfStep s read infer).statuses ∧
    (wtStep s read infer).events = (wfStep s read infer).events ∧
    (wtStep s read infer).consumedInfer = (wfStep s read infer).consumedInfer ∧
    (wtStep s read infer).routed =
      ((wtStep s read infer).events.filter isFinalEvent).map
        TranscriptEvent.text := by
  cases read with
  | none => simp [wtStep, wfStep]
  | some d =>
    obtain ⟨w1, w2, w3, w4, w5⟩ :=
      wtClassify_eq_wfClassify (s.window ++ [d]) s.prev_text s.stable_cycles
        (match infer with | some raw => pyStrip raw | none => "")
    simp only [wtStep, wfStep]
    split_ifs <;> simp [w1, w2, w3, w4, w5, isFinalEvent]

/-- Claim C10: given the same sequence of frame-read results and the same
sequence of per-cycle inference results, the wisprtux and whisperflow
worker loops emit identical transcript event sequences (same flags, same
texts, same order), identical status sequences, and end in identical loop
states; the wisprtux loop differs only in additionally routing the final
texts — its routed texts are exactly the texts of its final events, in
order. -/
theorem wisprtux_c10_refinement :
    ∀ (reads : List (Option Frame)) (infers : List (Option String))
      (s : LoopState),
      (wtRun s reads infers).events = (wfRun s reads infers).events ∧
      (wtRun s reads infers).statuses = (wfRun s reads infers).statuses ∧
      (wtRun s reads infers).state = (wfRun s reads infers).state ∧
      (wtRun s reads infers).routed =
        ((wtRun s reads infers).events.filter isFinalEvent).map
          TranscriptEvent.text := by
  intro reads
  induction reads with
  | nil => intro infers s; simp [wtRun, wfRun]
  | cons read reads ih =>
    intro infers s
    obtain ⟨h1, h2, h3, h4, h5⟩ := wtStep_eq_wfStep s read (infers.headD none)
    simp only [wtRun, wfRun]
    rw [← h1, ← h2, ← h3, ← h4]
    obtain ⟨e1, e2, e3, e4⟩ :=
      ih (if (wtStep s read (infers.headD none)).consumedInfer then
            infers.tail else infers)
        ((wtStep s read (infers.headD none)).state)
    refine ⟨by rw [e1], by rw [e2], by rw [e3], ?_⟩
    rw [List.filter_append, List.map_append, h5, e4]

/-! ## Engine control idempotence -/

/-- Claim C4: calling `start_recording` while a session is active, or
`stop_recording` while none is, is a no-op — the engine state is returned
unchanged, no worker thread is spawned and no status is emitted. -/
theorem wisprtux_c4_idempotence :
    (∀ (s : EngineControl) (captured : OriginWindow),
        s.recording = true → start_recording s captured = (s, false)) ∧
    (∀ s : EngineControl, s.recording = false →
        stop_recording s = (s, [])) := by
  constructor
  · intro s c h; simp [start_recording, h]
  · intro s h; simp [stop_recording, h]

/-- Witness for C4 at concrete engine states. -/
theorem wisprtux_c4_witness :
    start_recording ⟨true, none, false, 1⟩ ⟨some "w"⟩ =
      (⟨true, none, false, 1⟩, false) ∧
    stop_recording ⟨false, none, false, 0⟩ = (⟨false, none, false, 0⟩, []) :=
  ⟨wisprtux_c4_idempotence.1 ⟨true, none, false, 1⟩ ⟨some "w"⟩ rfl,
   wisprtux_c4_idempotence.2 ⟨false, none, false, 0⟩ rfl⟩

/-! ## Model loading policy -/

/-- Claim C5: `_load_model` follows the three-branch policy in order.  If
the local weights file exists, it is loaded with no network access,
regardless of `offline`.  Else, if `offline` is false, a network fetch is
attempted.  Else (offline and no local file) the result is the
model-unavailable-offline failure and no network fetch happens. -/
theorem wisprtux_c5_offline_policy :
    ∀ (model_name : String) (offline : Bool) (local_exists : String → Bool)
      (load_ok : Bool),
      (local_exists (MODELS_DIR ++ "/" ++ model_file_name model_name)
          = true →
        (load_model model_name offline local_exists load_ok).network_attempted
            = false ∧
          (load_ok = true →
            (load_model model_name offline local_exists load_ok).loaded =
              some (MODELS_DIR ++ "/" ++ model_file_name model_name))) ∧
      (local_exists (MODELS_DIR ++ "/" ++ model_file_name model_name)
          = false →
        offline = false →
        (load_model model_name offline local_exists load_ok).network_attempted
          = true) ∧
      (local_exists (MODELS_DIR ++ "/" ++ model_file_name model_name)
          = false →
        offline = true →
        load_model model_name offline local_exists load_ok =
          ⟨false, false, none,
            ["Loading model...", "Model not available offline"]⟩) := by
  intro mn off lx ok
  refine ⟨fun h => ?_, fun h hoff => ?_, fun h hoff => ?_⟩
  · cases ok <;> simp [load_model, h]
  · subst hoff; cases ok <;> simp [load_model, h]
  · subst hoff; simp [load_model, h]

/-- Witness for C5: one instance per branch of the policy. -/
theorem wisprtux_c5_witness :
    (load_model "tiny.en" true (fun _ => true) true).network_attempted
        = false ∧
    (load_model "base.en" false (fun _ => false) true).network_attempted
        = true ∧
    load_model "base.en" true (fun _ => false) true =
      ⟨false, false, none,
        ["Loading model...", "Model not available offline"]⟩ :=
  ⟨((wisprtux_c5_offline_policy "tiny.en" true (fun _ => true) true).1
      rfl).1,
   (wisprtux_c5_offline_policy "base.en" false (fun _ => false) true).2.1
     rfl rfl,
   (wisprtux_c5_offline_policy "base.en" true (fun _ => false) true).2.2
     rfl rfl⟩

/-- Claim C9: every model identifier outside the five known names resolves
to the tiny.en weights file `tiny.en.pt`; if that file is cached locally,
loading an unknown identifier silently loads the tiny.en weights (local
branch, no network, success). -/
theorem wisprtux_c9_unknown_model :
    ∀ model_name : String,
      model_name ∉ ["tiny.en", "base.en", "small.en", "medium.en", "large"] →
      model_file_name model_name = "tiny.en.pt" ∧
      ∀ offline : Bool,
        (load_model model_name offline
            (fun p => p == MODELS_DIR ++ "/" ++ "tiny.en.pt") true).loaded =
          some (MODELS_DIR ++ "/" ++ "tiny.en.pt") ∧
        (load_model model_name offline
            (fun p => p == MODELS_DIR ++ "/" ++ "tiny.en.pt")
            true).network_attempted = false := by
  intro mn hmn
  simp at hmn
  obtain ⟨h1, h2, h3, h4, h5⟩ := hmn
  have b1 : (mn == "tiny.en") = false := by simp [h1]
  have b2 : (mn == "base.en") = false := by simp [h2]
  have b3 : (mn == "small.en") = false := by simp [h3]
  have b4 : (mn == "medium.en") = false := by simp [h4]
  have b5 : (mn == "large") = false := by simp [h5]
  have hf : model_file_name mn = "tiny.en.pt" := by
    simp [model_file_name, MODEL_FILES, List.lookup, b1, b2, b3, b4, b5]
  refine ⟨hf, fun off => ?_⟩
  constructor <;> simp [load_model, hf]

/-- Witness for C9 at the unknown identifier `"bogus"`. -/
theorem wisprtux_c9_witness :
    model_file_name "bogus" = "tiny.en.pt" ∧
    (load_model "bogus" true (fun p => p == MODELS_DIR ++ "/" ++ "tiny.en.pt")
        true).loaded = some (MODELS_DIR ++ "/" ++ "tiny.en.pt") := by
  have h := wisprtux_c9_unknown_model "bogus" (by decide)
  exact ⟨h.1, (h.2 true).1⟩

/-! ## Output routing -/

/-- Claim C7, counterexample.  The claim states that when auto-typing with
a valid captured window context, typing is skipped if focus restoration
fails.  In `_route_final_text` the result of `focus_window` is discarded:
with `focus_result = false` the trace still contains the `typeText` call
(which, per `window_tracker.type_text` with no target window, types into
whatever window is currently focused). -/
theorem wisprtux_c7_counterexample :
    route_final_text "hello" false true (some ⟨some "w1"⟩) true false true =
      [RouteAction.focusWindow "w1", RouteAction.typeText "hello"] ∧
    RouteAction.typeText "hello" ∈
      route_final_text "hello" false true (some ⟨some "w1"⟩) true false
        true := by
  constructor <;> decide

/-- Claim C7, amended.  When routing non-empty finalized text with
`auto_type` enabled and a valid captured window context, focus restoration
is attempted and the text is then typed unconditionally: the trace is the
same for every combination of the external calls' results, so on focus
failure the text is still typed (into whatever window is focused). -/
theorem wisprtux_c7_typing_unconditional :
    ∀ (text wid : String) (auto_clipboard clip_result focus_result
        type_result : Bool),
      text ≠ "" →
      route_final_text text auto_clipboard true (some ⟨some wid⟩)
          clip_result focus_result type_result =
        (if auto_clipboard then [RouteAction.setClipboard text] else []) ++
          [RouteAction.focusWindow wid, RouteAction.typeText text] := by
  intro text wid ac cr fr tr h
  simp [route_final_text, h]

/-- Witness for C7 (amended) at a concrete failing focus result. -/
theorem wisprtux_c7_witness :
    route_final_text "hello" true true (some ⟨some "w1"⟩) true false false =
      [RouteAction.setClipboard "hello", RouteAction.focusWindow "w1",
        RouteAction.typeText "hello"] := by
  have h := wisprtux_c7_typing_unconditional "hello" "w1" true true false
    false (by decide)
  simpa using h

/-- Claim C8: with `auto_clipboard = true` and `auto_type = false` the
typing path (focus restoration and text injection) is never invoked — the
trace is exactly the clipboard call for non-empty text — regardless of any
window context; and the two output paths are independent of the external
calls' results: the trace is identical for every combination of result
booleans, so a failure of one path can never suppress the other. -/
theorem wisprtux_c8_independent_paths :
    (∀ (text : String) (origin : Option OriginWindow)
        (clip_result focus_result type_result : Bool),
        route_final_text text true false origin clip_result focus_result
            type_result =
          if text = "" then [] else [RouteAction.setClipboard text]) ∧
    (∀ (text : String) (auto_clipboard auto_type : Bool)
        (origin : Option OriginWindow) (cr fr tr cr2 fr2 tr2 : Bool),
        route_final_text text auto_clipboard auto_type origin cr fr tr =
          route_final_text text auto_clipboard auto_type origin cr2 fr2
            tr2) := by
  constructor
  · intro text origin cr fr tr
    by_cases h : text = "" <;> simp [route_final_text, h]
  · intro text ac at2 origin cr fr tr cr2 fr2 tr2
    rfl
